import Mathlib

/-!
Shallow embedding of `perceval/backends/core/rss.py` (the RSS backend of
Perceval) and proofs about it.

The file models the connector's data model and operations directly from the
source: the `RSS` backend class, its `RSSClient`, the `fetch` and
`fetch_from_cache` generators, and the three static metadata extractors.
External collaborators (the feed parser, the date parser, the network) are
passed in as an explicit environment `Env`.  Parts of this repository that
the source imports but that are not part of the backend file itself (the
`metadata` decorator, the cache queue protocol of the `Backend` base class,
`str_to_datetime` / `datetime_to_utc` from `utils`) are modelled from the
specification, as marked in their doc comments.

Python generator semantics is made explicit: calling `fetch()` or
`fetch_from_cache()` merely creates a generator object capturing the
receiver (`FetchCall` / `FromCacheCall`); all effects of the body happen
when the caller first iterates, which is modelled by `FetchCall.force` and
`FromCacheCall.force`.
-/

/-- One feed entry as decoded by the feed parser.  Fields the backend reads
are `link` and `published`; a missing dictionary key is an `Option.none`
(Python raises `KeyError` on access).  Other fields pass through unexamined
and are represented by `title` as a stand-in. -/
structure Entry where
  link : Option String
  published : Option String
  title : Option String
  deriving Repr, DecidableEq

/-- The result of `feedparser.parse`: a document holding the ordered list of
entries (`parsed['entries']`). -/
structure FeedDocument where
  entries : List Entry
  deriving Repr, DecidableEq

/-- Modelled from the spec: a parsed date-time value as returned by
`str_to_datetime` (`perceval/utils.py`, not part of the backend file).  It
denotes an instant: `epochSeconds` is the seconds-since-epoch value of the
instant (a float in Python, modelled as a rational) and `utcOffset` the
timezone offset the string carried. -/
structure PDateTime where
  epochSeconds : Rat
  utcOffset : Rat
  deriving Repr, DecidableEq

/-- Python's `datetime.timestamp()`: the seconds-since-epoch value of the
instant, independent of the timezone the value is displayed in. -/
def PDateTime.timestamp (d : PDateTime) : Rat := d.epochSeconds

/-- Modelled from the spec: `datetime_to_utc` (`perceval/utils.py`, not part
of the backend file) normalizes a date-time to Universal Time, keeping the
instant it denotes. -/
def datetime_to_utc (d : PDateTime) : PDateTime :=
  { epochSeconds := d.epochSeconds, utcOffset := 0 }

/-- The errors the backend can surface, one constructor per error class of
the source: `requests` transport failures, `raise_for_status` HTTP errors,
`CacheError`, feed-parse failures, Python `KeyError` on a missing entry
field, `InvalidDateError` from `str_to_datetime`, and the error that
surfaces when `next()` is applied to an exhausted cache retrieval iterator
inside a generator (a `RuntimeError` under PEP 479 semantics). -/
inductive PercevalError where
  | transportError
  | httpStatusError (code : Nat)
  | cacheError (cause : String)
  | feedParseError (msg : String)
  | keyError (key : String)
  | invalidDateError (date : String)
  | stopIteration
  deriving Repr, DecidableEq

/-- An HTTP response as seen through `requests`: status code and body text. -/
structure HttpResponse where
  status : Nat
  text : String
  deriving Repr, DecidableEq

/-- Modelled from the spec: the cache handle of the `Backend` base class
(not part of the backend file).  `queue` holds raw records staged but not
yet committed; `stored` holds committed records in retrieval order, most
recent first. -/
structure Cache where
  queue : List String
  stored : List String
  deriving Repr, DecidableEq

/-- Modelled from the spec: `Backend._purge_cache_queue` discards any
not-yet-committed writes; a no-op when no cache is configured. -/
def purgeCacheQueue (c : Option Cache) : Option Cache :=
  c.map fun cc => { cc with queue := [] }

/-- Modelled from the spec: `Backend._push_cache_queue` stages one raw
record; a no-op when no cache is configured. -/
def pushCacheQueue (c : Option Cache) (payload : String) : Option Cache :=
  c.map fun cc => { cc with queue := cc.queue ++ [payload] }

/-- Modelled from the spec: `Backend._flush_cache_queue` commits the staged
records durably; a no-op when no cache is configured. -/
def flushCacheQueue (c : Option Cache) : Option Cache :=
  c.map fun cc => { queue := [], stored := cc.queue ++ cc.stored }

/-- Modelled from the spec: `cache.retrieve()` yields the committed records
as a lazy sequence, in the framework's storage order. -/
def Cache.retrieve (c : Cache) : List String := c.stored

/-- The `RSSClient` class: a simple client bound to one feed URL. -/
structure RSSClient where
  url : String
  deriving Repr, DecidableEq

/-- The `RSS` backend object.  `origin` is set to the URL at construction;
`tag` defaults to the origin when unset (base-class behavior per the spec);
`cache` is the optional cache handle. -/
structure RSS where
  url : String
  origin : String
  tag : String
  cache : Option Cache
  client : RSSClient
  deriving Repr, DecidableEq

/-- `RSS.__init__(url, tag, cache)`. -/
def RSS.init (url : String) (tag : Option String) (cache : Option Cache) : RSS :=
  { url := url, origin := url, tag := tag.getD url, cache := cache,
    client := { url := url } }

/-- The external world one call runs against: the feed parser
(`feedparser.parse`, which may fail), the date parser (`str_to_datetime`,
spec-modelled, `none` on an unrecognized format), and the network's answer
to `GET url` (a transport error or a response). -/
structure Env where
  parse : String → Except String FeedDocument
  stod : String → Option PDateTime
  net : String → Except PercevalError HttpResponse

/-- `RSSClient.get_entries`: one `requests.get(self.url)` followed by
`raise_for_status()` (which raises for status codes 400-599), returning the
response text. -/
def RSSClient.get_entries (client : RSSClient) (env : Env) :
    Except PercevalError String :=
  match env.net client.url with
  | .error e => .error e
  | .ok resp =>
      if 400 ≤ resp.status ∧ resp.status < 600 then
        .error (.httpStatusError resp.status)
      else
        .ok resp.text

/-- `RSS.parse_feed(raw_entries)`: delegates to `feedparser.parse`. -/
def RSS.parse_feed (env : Env) (raw_entries : String) :
    Except String FeedDocument :=
  env.parse raw_entries

/-- `RSS.metadata_id(item)`: `str(item['link'])`; a missing key raises
`KeyError`. -/
def RSS.metadata_id (item : Entry) : Except PercevalError String :=
  match item.link with
  | none => .error (.keyError "link")
  | some l => .ok l

/-- `RSS.metadata_updated_on(item)`:
`str_to_datetime(item['published']).timestamp()`.  A missing key raises
`KeyError`; an unrecognized date format raises the date parse error. -/
def RSS.metadata_updated_on (stod : String → Option PDateTime)
    (item : Entry) : Except PercevalError Rat :=
  match item.published with
  | none => .error (.keyError "published")
  | some s =>
      match stod s with
      | none => .error (.invalidDateError s)
      | some d => .ok d.timestamp

/-- `RSS.metadata_category(item)`: the constant category string. -/
def RSS.metadata_category (_item : Entry) : String := "entry"

/-- `RSS.has_caching()`. -/
def RSS.has_caching : Bool := true

/-- `RSS.has_resuming()`. -/
def RSS.has_resuming : Bool := false

/-- One emitted item as wrapped by the host framework's item contract:
id, timestamp, category, origin, tag and the raw entry. -/
structure Item where
  id : String
  updated_on : Rat
  category : String
  origin : String
  tag : String
  data : Entry
  deriving Repr, DecidableEq

/-- Modelled from the spec: the `metadata` decorator (`perceval/backend.py`,
not part of the backend file) wraps one produced entry with
`{id, updated_on, category, origin, tag, raw data}`, deriving the fields via
the backend's static metadata extractors; any extractor failure propagates. -/
def wrapItem (env : Env) (self : RSS) (e : Entry) :
    Except PercevalError Item :=
  match RSS.metadata_id e with
  | .error err => .error err
  | .ok i =>
      match RSS.metadata_updated_on env.stod e with
      | .error err => .error err
      | .ok ts =>
          .ok { id := i, updated_on := ts, category := RSS.metadata_category e,
                origin := self.origin, tag := self.tag, data := e }

/-- Modelled from the spec: the caller-visible sequence of a fetch is the
metadata-wrapped entries; per the spec no partial results are ever returned
feed-wide — either all parsed entries are wrapped and yielded or the call
fails as a whole with the first wrapping failure. -/
def wrapItems (env : Env) (self : RSS) : List Entry → Except PercevalError (List Item)
  | [] => .ok []
  | e :: es =>
      match wrapItem env self e with
      | .error err => .error err
      | .ok it =>
          match wrapItems env self es with
          | .error err => .error err
          | .ok its => .ok (it :: its)

/-- A generator object created by calling `RSS.fetch()`: the body has not
run yet, only the receiver is captured. -/
structure FetchCall where
  gself : RSS
  deriving Repr, DecidableEq

/-- A generator object created by calling `RSS.fetch_from_cache()`: the body
has not run yet, only the receiver is captured. -/
structure FromCacheCall where
  gself : RSS
  deriving Repr, DecidableEq

/-- `RSS.fetch()`: being a generator function, calling it only creates the
generator object; no statement of the body runs. -/
def RSS.fetch (self : RSS) : FetchCall := { gself := self }

/-- `RSS.fetch_from_cache()`: being a generator function, calling it only
creates the generator object; no statement of the body runs (not even the
`CacheError` check). -/
def RSS.fetch_from_cache (self : RSS) : FromCacheCall := { gself := self }

/-- Running the body of `fetch` when the caller first iterates: purge the
cache queue, `get_entries`, push the raw payload, parse, flush, then emit
the wrapped entries.  Returns the connector state after the run together
with the outcome (all wrapped items, or the error that aborted the call). -/
def FetchCall.force (env : Env) (g : FetchCall) :
    RSS × Except PercevalError (List Item) :=
  let s1 : RSS := { g.gself with cache := purgeCacheQueue g.gself.cache }
  match s1.client.get_entries env with
  | .error e => (s1, .error e)
  | .ok raw =>
      let s2 : RSS := { s1 with cache := pushCacheQueue s1.cache raw }
      match RSS.parse_feed env raw with
      | .error msg => (s2, .error (.feedParseError msg))
      | .ok doc =>
          let s3 : RSS := { s2 with cache := flushCacheQueue s2.cache }
          (s3, wrapItems env s3 doc.entries)

/-- Running the body of `fetch_from_cache` when the caller first iterates:
raise `CacheError` when no cache is configured, take `next()` of the cache
retrieval (error on an empty retrieval), parse the record and emit the
wrapped entries.  The connector state is not modified and the network is
never consulted. -/
def FromCacheCall.force (env : Env) (g : FromCacheCall) :
    Except PercevalError (List Item) :=
  match g.gself.cache with
  | none => .error (.cacheError "cache instance was not provided")
  | some c =>
      match c.retrieve with
      | [] => .error .stopIteration
      | payload :: _ =>
          match RSS.parse_feed env payload with
          | .error msg => .error (.feedParseError msg)
          | .ok doc => wrapItems env g.gself doc.entries

/-- The connector state left behind by a successful forced `fetch` whose raw
payload was `raw`: the cache queue was purged, the payload pushed, and the
queue flushed. -/
def fetchedState (self : RSS) (raw : String) : RSS :=
  { self with
    cache := flushCacheQueue (pushCacheQueue (purgeCacheQueue self.cache) raw) }

/-! Concrete fixtures used by the witness theorems. -/

def demoUrl : String := "http://example.com/feed"

def demoEntry1 : Entry :=
  { link := some "http://x/1",
    published := some "Mon, 01 Jan 2024 00:00:00 GMT",
    title := some "one" }

def demoEntry2 : Entry :=
  { link := some "http://x/2",
    published := some "Tue, 02 Jan 2024 00:00:00 GMT",
    title := some "two" }

/-- An entry whose `published` field is missing. -/
def demoBadEntry : Entry :=
  { link := some "http://x/3", published := none, title := some "three" }

/-- A concrete date parser recognizing the two demo date strings. -/
def demoStod : String → Option PDateTime := fun s =>
  if s = "Mon, 01 Jan 2024 00:00:00 GMT" then
    some { epochSeconds := 1704067200, utcOffset := 0 }
  else if s = "Tue, 02 Jan 2024 00:00:00 GMT" then
    some { epochSeconds := 1704153600, utcOffset := 0 }
  else none

def demoRaw : String := "<rss version=2.0>demo feed</rss>"

def demoDoc : FeedDocument := { entries := [demoEntry1, demoEntry2] }

def demoBadDoc : FeedDocument := { entries := [demoEntry1, demoBadEntry] }

/-- A concrete feed parser recognizing the demo payload. -/
def demoParse (doc : FeedDocument) : String → Except String FeedDocument :=
  fun raw => if raw = demoRaw then .ok doc else .error "unrecognized feed"

def demoEnv : Env :=
  { parse := demoParse demoDoc, stod := demoStod,
    net := fun _ => .ok { status := 200, text := demoRaw } }

def demoBadEnv : Env :=
  { parse := demoParse demoBadDoc, stod := demoStod,
    net := fun _ => .ok { status := 200, text := demoRaw } }

def demoEnv404 : Env :=
  { parse := demoParse demoDoc, stod := demoStod,
    net := fun _ => .ok { status := 404, text := "Not Found" } }

/-- The demo environment with the network replaced by a transport failure:
used to check that the cache replay never touches the network. -/
def demoEnvDeadNet : Env :=
  { parse := demoParse demoDoc, stod := demoStod,
    net := fun _ => .error .transportError }

def demoCache : Cache := { queue := [], stored := [] }

def demoRSS : RSS := RSS.init demoUrl none none

def demoRSSCached : RSS := RSS.init demoUrl none (some demoCache)

def demoItem1 : Item :=
  { id := "http://x/1", updated_on := 1704067200, category := "entry",
    origin := demoUrl, tag := demoUrl, data := demoEntry1 }

def demoItem2 : Item :=
  { id := "http://x/2", updated_on := 1704153600, category := "entry",
    origin := demoUrl, tag := demoUrl, data := demoEntry2 }

def demoItems : List Item := [demoItem1, demoItem2]

/-- The connector state after the successful demo fetch: queue flushed, the
raw payload committed to the store. -/
def demoFetched : RSS :=
  { url := demoUrl, origin := demoUrl, tag := demoUrl,
    cache := some { queue := [], stored := [demoRaw] },
    client := { url := demoUrl } }

/-! Helper lemmas shared by the proofs. -/

/-- A successful-path characterization of the forced `fetch`: with a
reachable response of non-error status and a parse that succeeds, the run
ends in `fetchedState` and wraps the parsed entries. -/
theorem fetch_force_success (env : Env) (self : RSS) (resp : HttpResponse)
    (doc : FeedDocument) (hnet : env.net self.client.url = .ok resp)
    (hok : ¬(400 ≤ resp.status ∧ resp.status < 600))
    (hparse : env.parse resp.text = .ok doc) :
    FetchCall.force env (RSS.fetch self) =
      (fetchedState self resp.text,
        wrapItems env (fetchedState self resp.text) doc.entries) := by
  simp [FetchCall.force, RSS.fetch, RSSClient.get_entries, hnet, hok,
    RSS.parse_feed, hparse, fetchedState]

/-- If some entry of the list lacks `published`, wrapping the whole list
fails with some error. -/
theorem wrapItems_error_of_missing_published (env : Env) (self : RSS) :
    ∀ es : List Entry, (∃ e ∈ es, e.published = none) →
      ∃ err, wrapItems env self es = .error err := by
  intro es
  induction es with
  | nil => rintro ⟨e, he, -⟩; cases he
  | cons a tl ih =>
      rintro ⟨e, he, hpub⟩
      rcases List.mem_cons.mp he with rfl | htl
      · cases hl : e.link with
        | none =>
            exact ⟨.keyError "link",
              by simp [wrapItems, wrapItem, RSS.metadata_id, hl]⟩
        | some l =>
            exact ⟨.keyError "published",
              by simp [wrapItems, wrapItem, RSS.metadata_id, hl,
                   RSS.metadata_updated_on, hpub]⟩
      · cases hw : wrapItem env self a with
        | error err => exact ⟨err, by simp [wrapItems, hw]⟩
        | ok it =>
            obtain ⟨err, herr⟩ := ih ⟨e, htl, hpub⟩
            exact ⟨err, by simp [wrapItems, hw, herr]⟩

/-- Wrapping a list of entries that all carry a link and a parsable
`published` date succeeds, and the produced ids are exactly the links, in
order. -/
theorem wrapItems_ok_of_wellformed (env : Env) (self : RSS) :
    ∀ es : List Entry,
      (∀ e ∈ es, (∃ l, e.link = some l) ∧
        ∃ d, e.published.bind env.stod = some d) →
      ∃ its, wrapItems env self es = .ok its ∧
        its.map Item.id = es.map (fun e => e.link.getD "") ∧
        its.length = es.length := by
  intro es
  induction es with
  | nil => intro _; exact ⟨[], rfl, rfl, rfl⟩
  | cons a tl ih =>
      intro h
      obtain ⟨⟨l, hl⟩, ⟨d, hd⟩⟩ := h a (List.mem_cons_self a tl)
      obtain ⟨its, hits, hmap, hlen⟩ :=
        ih (fun e he => h e (List.mem_cons_of_mem a he))
      cases hp : a.published with
      | none => rw [hp] at hd; cases hd
      | some s =>
          rw [hp] at hd
          simp only [Option.some_bind] at hd
          refine ⟨{ id := l, updated_on := d.timestamp, category := "entry",
                    origin := self.origin, tag := self.tag, data := a } :: its,
            ?_, ?_, ?_⟩
          · simp [wrapItems, wrapItem, RSS.metadata_id, hl,
              RSS.metadata_updated_on, hp, hd, hits, RSS.metadata_category]
          · simp [hmap, hl]
          · simp [hlen]

/-- Wrapping depends on the environment only through the date parser. -/
theorem wrapItems_stod_congr (env env2 : Env) (self : RSS)
    (h : env.stod = env2.stod) :
    ∀ es, wrapItems env self es = wrapItems env2 self es := by
  intro es
  induction es with
  | nil => rfl
  | cons a tl ih =>
      have ha : wrapItem env self a = wrapItem env2 self a := by
        simp [wrapItem, h]
      simp only [wrapItems, ha, ih]

/-! The claims. -/

/-- Claim C5: `metadata_updated_on` reads `entry.published` as a date-time
string and returns the seconds-since-epoch value of the instant it denotes,
which is exactly the timestamp of its Universal-Time normalization; a
missing field is a `KeyError` and an unrecognized date format is a date
parse error. -/
theorem C5_metadata_updated_on_spec (stod : String → Option PDateTime)
    (e : Entry) :
    (e.published = none →
      RSS.metadata_updated_on stod e = .error (.keyError "published")) ∧
    (∀ s, e.published = some s → stod s = none →
      RSS.metadata_updated_on stod e = .error (.invalidDateError s)) ∧
    (∀ s d, e.published = some s → stod s = some d →
      RSS.metadata_updated_on stod e = .ok ((datetime_to_utc d).timestamp) ∧
      (datetime_to_utc d).timestamp = d.timestamp ∧
      (datetime_to_utc d).utcOffset = 0) := by
  refine ⟨?_, ?_, ?_⟩
  · intro h; simp [RSS.metadata_updated_on, h]
  · intro s hs hn; simp [RSS.metadata_updated_on, hs, hn]
  · intro s d hs hd
    refine ⟨?_, rfl, rfl⟩
    simp [RSS.metadata_updated_on, hs, hd, datetime_to_utc, PDateTime.timestamp]

/-- Concrete instance of C5 at a demo entry and the demo date parser. -/
theorem C5_metadata_updated_on_spec_witness :
    demoEntry1.published = some "Mon, 01 Jan 2024 00:00:00 GMT" ∧
    demoStod "Mon, 01 Jan 2024 00:00:00 GMT" =
      some { epochSeconds := 1704067200, utcOffset := 0 } ∧
    RSS.metadata_updated_on demoStod demoEntry1 =
      .ok ((datetime_to_utc
        { epochSeconds := 1704067200, utcOffset := 0 }).timestamp) :=
  ⟨rfl, by decide,
    ((C5_metadata_updated_on_spec demoStod demoEntry1).2.2 _ _ rfl
      (by decide)).1⟩

/-- Claim C6: forcing `fetch_from_cache` on a connector constructed without
a cache fails with `CacheError` ("cache instance was not provided") and so
yields no items. -/
theorem C6_fetch_from_cache_requires_cache (env : Env) (self : RSS)
    (h : self.cache = none) :
    FromCacheCall.force env (RSS.fetch_from_cache self) =
      .error (.cacheError "cache instance was not provided") := by
  simp [FromCacheCall.force, RSS.fetch_from_cache, h]

/-- Concrete instance of C6 on the cache-less demo connector. -/
theorem C6_fetch_from_cache_requires_cache_witness :
    demoRSS.cache = none ∧
    FromCacheCall.force demoEnv (RSS.fetch_from_cache demoRSS) =
      .error (.cacheError "cache instance was not provided") :=
  ⟨rfl, C6_fetch_from_cache_requires_cache demoEnv demoRSS rfl⟩

/-- Claim C7: `metadata_category` returns the constant string "entry" for
every entry, independent of the entry's contents. -/
theorem C7_metadata_category_constant (e : Entry) :
    RSS.metadata_category e = "entry" := rfl

/-- Claim C8: the capability queries are constants: `has_caching` answers
`true` and `has_resuming` answers `false`, independent of any state. -/
theorem C8_capability_constants :
    RSS.has_caching = true ∧ RSS.has_resuming = false := ⟨rfl, rfl⟩

/-- Claim C9: calling the generator functions has no effect: each call only
returns an unstarted generator object capturing the receiver unchanged (in
particular the cache is untouched and nothing was purged, pushed, flushed or
fetched — the creation does not even take the environment), and even on a
connector with no cache configured `fetch_from_cache()` returns normally:
the `CacheError` check, like every other statement of the bodies, runs only
once the generator is iterated (`FetchCall.force` / `FromCacheCall.force`). -/
theorem C9_generator_calls_effect_free (self : RSS) :
    RSS.fetch self = { gself := self } ∧
    RSS.fetch_from_cache self = { gself := self } ∧
    (RSS.fetch self).gself.cache = self.cache ∧
    (self.cache = none → RSS.fetch_from_cache self = { gself := self }) :=
  ⟨rfl, rfl, rfl, fun _ => rfl⟩

/-- Concrete instance of C9 on the cache-less demo connector. -/
theorem C9_generator_calls_effect_free_witness :
    RSS.fetch demoRSS = { gself := demoRSS } ∧
    demoRSS.cache = none ∧
    RSS.fetch_from_cache demoRSS = { gself := demoRSS } :=
  ⟨(C9_generator_calls_effect_free demoRSS).1, rfl,
    (C9_generator_calls_effect_free demoRSS).2.2.2 rfl⟩

/-- Claim C10: on a connector whose cache is configured but empty (its
retrieval sequence has no records), forcing `fetch_from_cache` does not
yield an empty sequence: taking the first record of the empty retrieval
fails, so the call aborts with an error before yielding any item. -/
theorem C10_empty_cache_aborts (env : Env) (self : RSS) (c : Cache)
    (hc : self.cache = some c) (hs : c.stored = []) :
    FromCacheCall.force env (RSS.fetch_from_cache self) =
      .error .stopIteration := by
  simp [FromCacheCall.force, RSS.fetch_from_cache, hc, Cache.retrieve, hs]

/-- Concrete instance of C10 on the demo connector with an empty cache. -/
theorem C10_empty_cache_aborts_witness :
    demoRSSCached.cache = some demoCache ∧ demoCache.stored = [] ∧
    FromCacheCall.force demoEnv (RSS.fetch_from_cache demoRSSCached) =
      .error .stopIteration :=
  ⟨rfl, rfl, C10_empty_cache_aborts demoEnv demoRSSCached demoCache rfl rfl⟩

/-- Claim C1: when the fetched feed parses to entries among which some entry
lacks the `published` field, forcing `fetch` fails as a whole with an error
and yields zero items to the caller, rather than skipping only the malformed
entry. -/
theorem C1_missing_published_fails_whole_fetch (env : Env) (self : RSS)
    (resp : HttpResponse) (doc : FeedDocument)
    (hnet : env.net self.client.url = .ok resp) (hok : resp.status < 400)
    (hparse : env.parse resp.text = .ok doc)
    (hbad : ∃ e ∈ doc.entries, e.published = none) :
    ∃ err, (FetchCall.force env (RSS.fetch self)).2 = .error err := by
  have hok2 : ¬(400 ≤ resp.status ∧ resp.status < 600) := by omega
  obtain ⟨err, herr⟩ := wrapItems_error_of_missing_published env
    (fetchedState self resp.text) doc.entries hbad
  refine ⟨err, ?_⟩
  rw [fetch_force_success env self resp doc hnet hok2 hparse]
  exact herr

/-- Concrete instance of C1: a feed whose second entry has no `published`
field makes the whole forced fetch fail. -/
theorem C1_missing_published_fails_whole_fetch_witness :
    demoBadEnv.net demoRSS.client.url = .ok { status := 200, text := demoRaw } ∧
    demoBadEnv.parse demoRaw = .ok demoBadDoc ∧
    demoBadEntry.published = none ∧
    ∃ err, (FetchCall.force demoBadEnv (RSS.fetch demoRSS)).2 = .error err :=
  ⟨rfl, rfl, rfl,
    C1_missing_published_fails_whole_fetch demoBadEnv demoRSS
      { status := 200, text := demoRaw } demoBadDoc rfl (by decide) rfl
      ⟨demoBadEntry, by simp [demoBadDoc], rfl⟩⟩

/-- Claim C3: when the fetched feed parses to a document all of whose
entries are well formed (a non-empty link and a parsable `published` date),
forcing `fetch` yields exactly one item per entry, in feed order, and each
item's id is the non-empty link of the corresponding entry. -/
theorem C3_fetch_yields_all_wellformed_entries (env : Env) (self : RSS)
    (resp : HttpResponse) (doc : FeedDocument)
    (hnet : env.net self.client.url = .ok resp) (hok : resp.status < 400)
    (hparse : env.parse resp.text = .ok doc)
    (hwf : ∀ e ∈ doc.entries,
      (∃ l, e.link = some l ∧ l ≠ "") ∧
      ∃ d, e.published.bind env.stod = some d) :
    ∃ items, (FetchCall.force env (RSS.fetch self)).2 = .ok items ∧
      items.length = doc.entries.length ∧
      items.map Item.id = doc.entries.map (fun e => e.link.getD "") ∧
      ∀ it ∈ items, it.id ≠ "" := by
  have hok2 : ¬(400 ≤ resp.status ∧ resp.status < 600) := by omega
  obtain ⟨its, hits, hmap, hlen⟩ :=
    wrapItems_ok_of_wellformed env (fetchedState self resp.text) doc.entries
      (fun e he => ⟨(hwf e he).1.imp (fun _ hh => hh.1), (hwf e he).2⟩)
  refine ⟨its, ?_, hlen, hmap, ?_⟩
  · rw [fetch_force_success env self resp doc hnet hok2 hparse]
    exact hits
  · intro it hit
    have hmem : it.id ∈ doc.entries.map (fun e => e.link.getD "") := by
      rw [← hmap]
      exact List.mem_map_of_mem Item.id hit
    obtain ⟨e, he, heq⟩ := List.mem_map.mp hmem
    obtain ⟨⟨l, hl, hne⟩, -⟩ := hwf e he
    rw [← heq, hl]
    simpa using hne

/-- Concrete instance of C3: the demo feed with two well-formed entries
yields two items whose ids are the two links, in order. -/
theorem C3_fetch_yields_all_wellformed_entries_witness :
    demoEnv.net demoRSS.client.url = .ok { status := 200, text := demoRaw } ∧
    demoEnv.parse demoRaw = .ok demoDoc ∧
    ∃ items, (FetchCall.force demoEnv (RSS.fetch demoRSS)).2 = .ok items ∧
      items.length = demoDoc.entries.length ∧
      items.map Item.id = demoDoc.entries.map (fun e => e.link.getD "") ∧
      ∀ it ∈ items, it.id ≠ "" := by
  refine ⟨rfl, rfl, ?_⟩
  refine C3_fetch_yields_all_wellformed_entries demoEnv demoRSS
    { status := 200, text := demoRaw } demoDoc rfl (by decide) rfl ?_
  intro e he
  have he2 : e = demoEntry1 ∨ e = demoEntry2 := by
    simpa [demoDoc] using he
  rcases he2 with rfl | rfl
  · exact ⟨⟨"http://x/1", rfl, by decide⟩,
      ⟨{ epochSeconds := 1704067200, utcOffset := 0 }, by decide⟩⟩
  · exact ⟨⟨"http://x/2", rfl, by decide⟩,
      ⟨{ epochSeconds := 1704153600, utcOffset := 0 }, by decide⟩⟩

/-- Claim C4: on an HTTP response with a non-success status code, forcing
`fetch` raises the HTTP-status error immediately, with no items; nothing was
pushed to the cache queue and the queue was never flushed during the call:
the committed store is unchanged and the resulting queue is empty — the only
queue operation the call performed was the purge at its start (which is also
what clears whatever a previous failed call left staged). -/
theorem C4_http_error_aborts_unflushed (env : Env) (self : RSS)
    (resp : HttpResponse) (hnet : env.net self.client.url = .ok resp)
    (h4 : 400 ≤ resp.status) (h6 : resp.status < 600) :
    FetchCall.force env (RSS.fetch self) =
      ({ self with cache := purgeCacheQueue self.cache },
        .error (.httpStatusError resp.status)) ∧
    (FetchCall.force env (RSS.fetch self)).1.cache.map Cache.stored =
      self.cache.map Cache.stored ∧
    (FetchCall.force env (RSS.fetch self)).1.cache.map Cache.queue =
      self.cache.map fun _ => [] := by
  have hmain : FetchCall.force env (RSS.fetch self) =
      ({ self with cache := purgeCacheQueue self.cache },
        .error (.httpStatusError resp.status)) := by
    simp [FetchCall.force, RSS.fetch, RSSClient.get_entries, hnet, h4, h6]
  refine ⟨hmain, ?_, ?_⟩ <;> rw [hmain] <;> cases self.cache <;>
    simp [purgeCacheQueue]

/-- Concrete instance of C4: a 404 response aborts the forced fetch with the
HTTP-status error and an unchanged, unflushed store. -/
theorem C4_http_error_aborts_unflushed_witness :
    demoEnv404.net demoRSSCached.client.url =
      .ok { status := 404, text := "Not Found" } ∧
    (400 ≤ 404 ∧ 404 < 600) ∧
    FetchCall.force demoEnv404 (RSS.fetch demoRSSCached) =
      ({ demoRSSCached with cache := purgeCacheQueue demoRSSCached.cache },
        .error (.httpStatusError 404)) :=
  ⟨rfl, by decide,
    (C4_http_error_aborts_unflushed demoEnv404 demoRSSCached
      { status := 404, text := "Not Found" } rfl (by decide) (by decide)).1⟩

/-- Claim C2: for a connector with a configured cache whose forced `fetch`
succeeded — which committed the feed body to the cache — forcing a
subsequent `fetch_from_cache` on the resulting connector yields exactly the
same sequence of items (hence the same ids in the same order), and it does
so under any network environment whatsoever: no HTTP request is involved in
the replay, its outcome being invariant under replacing the network (even by
one that always fails with a transport error). -/
theorem C2_cache_replay_identical (env : Env) (self : RSS) (c : Cache)
    (s2 : RSS) (items : List Item) (hcache : self.cache = some c)
    (hfetch : FetchCall.force env (RSS.fetch self) = (s2, .ok items)) :
    ∀ env2 : Env, env2.parse = env.parse → env2.stod = env.stod →
      FromCacheCall.force env2 (RSS.fetch_from_cache s2) = .ok items := by
  intro env2 hp hs
  rcases hnet : env.net self.client.url with e | resp
  · have hrun : FetchCall.force env (RSS.fetch self) =
        ({ self with cache := purgeCacheQueue self.cache }, .error e) := by
      simp [FetchCall.force, RSS.fetch, RSSClient.get_entries, hnet]
    rw [hrun] at hfetch
    simp at hfetch
  · by_cases hbad : 400 ≤ resp.status ∧ resp.status < 600
    · have hrun : FetchCall.force env (RSS.fetch self) =
          ({ self with cache := purgeCacheQueue self.cache },
            .error (.httpStatusError resp.status)) := by
        simp [FetchCall.force, RSS.fetch, RSSClient.get_entries, hnet, hbad]
      rw [hrun] at hfetch
      simp at hfetch
    · rcases hparse : env.parse resp.text with msg | doc
      · have hrun : FetchCall.force env (RSS.fetch self) =
            ({ self with
                cache := pushCacheQueue (purgeCacheQueue self.cache) resp.text },
              .error (.feedParseError msg)) := by
          simp [FetchCall.force, RSS.fetch, RSSClient.get_entries, hnet, hbad,
            RSS.parse_feed, hparse]
        rw [hrun] at hfetch
        simp at hfetch
      · rw [fetch_force_success env self resp doc hnet hbad hparse] at hfetch
        rw [Prod.mk.injEq] at hfetch
        obtain ⟨hstate, hitems⟩ := hfetch
        subst hstate
        have hcc : (fetchedState self resp.text).cache =
            some { queue := [], stored := resp.text :: c.stored } := by
          simp [fetchedState, hcache, purgeCacheQueue, pushCacheQueue,
            flushCacheQueue]
        have hparse2 : env2.parse resp.text = .ok doc := by rw [hp, hparse]
        simp only [FromCacheCall.force, RSS.fetch_from_cache, hcc,
          Cache.retrieve, RSS.parse_feed, hparse2]
        rw [← wrapItems_stod_congr env env2 (fetchedState self resp.text)
          hs.symm doc.entries]
        exact hitems

/-- Concrete instance of C2: fetching the demo feed commits its body, and
the replay from the cache returns the same two items even when the network
is replaced by one that always fails. -/
theorem C2_cache_replay_identical_witness :
    demoRSSCached.cache = some demoCache ∧
    FetchCall.force demoEnv (RSS.fetch demoRSSCached) =
      (demoFetched, .ok demoItems) ∧
    FromCacheCall.force demoEnvDeadNet (RSS.fetch_from_cache demoFetched) =
      .ok demoItems :=
  ⟨rfl, rfl,
    C2_cache_replay_identical demoEnv demoRSSCached demoCache demoFetched
      demoItems rfl rfl demoEnvDeadNet rfl rfl⟩
